import Mathlib

/-!
Verification of the PID free-fall interception simulator
(`FreeFall_Object/scripts/generate_random_scenarios.py` and the catch
classifiers in `animate_realtime.py` / `analyze_random_scenarios.py`).

The Python code works with floating-point numbers; the embedding works
over `ℚ`.  The only transcendental step in the source is the one-time
computation of `sin`, `cos` and `tan` of the track angle
(`angle_rad = np.deg2rad(angle_deg)`); the embedding therefore carries
those three values as fields of the configuration, and every claim is
stated symbolically in them, exactly as the spec does.
-/

namespace FreeFall

/-- Module constant `g = 9.81` of `generate_random_scenarios.py`. -/
def g : ℚ := 981/100

/-- Module constant `dt = 0.02` (50 Hz time step). -/
def dt : ℚ := 1/50

/-- Module constant `simulation_time = 40.0` (seconds). -/
def simulation_time : ℚ := 40

/-- Module constant `Kp = 45.0`. -/
def Kp : ℚ := 45

/-- Module constant `Ki = 0.5`. -/
def Ki : ℚ := 1/2

/-- Module constant `Kd = 25.0`. -/
def Kd : ℚ := 25

/-- Module constant `m = 10.0` (train mass, kg). -/
def m : ℚ := 10

/-- Module constant `mu = 0.1` (Coulomb friction coefficient). -/
def mu : ℚ := 1/10

/-- `num_steps = int(simulation_time / dt)` from `simulate_scenario`. -/
def num_steps : ℕ := Int.toNat ⌊simulation_time / dt⌋

/-- The per-scenario inputs of `simulate_scenario(angle_deg, ball_x,
ball_y_initial, train_x_initial, ...)`.  The angle enters the loop only
through `np.sin`, `np.cos`, `np.tan` of `angle_rad`; those three values
are carried directly as `sinA`, `cosA`, `tanA`. -/
structure ScenarioConfig where
  ball_x : ℚ
  ball_y_initial : ℚ
  train_x_initial : ℚ
  sinA : ℚ
  cosA : ℚ
  tanA : ℚ

/-- One row of the output DataFrame of `simulate_scenario`, in the
documented 8-column order. -/
structure SampleRecord where
  time : ℚ
  train_position : ℚ
  falling_object_position : ℚ
  applied_force : ℚ
  train_velocity : ℚ
  train_acceleration : ℚ
  error_derivative : ℚ
  error_integral : ℚ
deriving Inhabited, DecidableEq

/-- The mutable loop state of `simulate_scenario` just before iteration
`i`: `train_position[i]`, `train_velocity[i]`, and the PID variables
`error_integral` and `previous_error` as they stand when iteration `i`
begins. -/
structure SimState where
  s : ℚ
  v : ℚ
  integral : ℚ
  prev_error : ℚ

/-- Lines 64-70 of `generate_random_scenarios.py`: the ball's height at
time `t`, free fall clamped at the landing surface
`ball_landing_y = ball_x * tan(angle)`. -/
def ballHeight (cfg : ScenarioConfig) (t : ℚ) : ℚ :=
  let y := cfg.ball_y_initial - 1/2 * g * t^2
  let landing := cfg.ball_x * cfg.tanA
  if y ≤ landing then landing else y

/-- Lines 88-96: friction force with the ±0.01 velocity dead band. -/
def friction (cfg : ScenarioConfig) (v : ℚ) : ℚ :=
  if v > 1/100 then -(mu * (m * g * cfg.cosA))
  else if v < -(1/100) then mu * (m * g * cfg.cosA)
  else 0

/-- Line 73: `current_error = ball_x - train_position[i]`. -/
def pidError (cfg : ScenarioConfig) (st : SimState) : ℚ :=
  cfg.ball_x - st.s

/-- Line 77: the integral after `error_integral += current_error * dt`
at iteration `i` (the updated value is what gets recorded). -/
def pidIntegral (cfg : ScenarioConfig) (st : SimState) : ℚ :=
  st.integral + pidError cfg st * dt

/-- Line 78: `error_derivative = (current_error - previous_error) / dt`. -/
def pidDeriv (cfg : ScenarioConfig) (st : SimState) : ℚ :=
  (pidError cfg st - st.prev_error) / dt

/-- Line 84: `F_control = Kp*e + Ki*error_integral + Kd*error_derivative`. -/
def pidForce (cfg : ScenarioConfig) (st : SimState) : ℚ :=
  Kp * pidError cfg st + Ki * pidIntegral cfg st + Kd * pidDeriv cfg st

/-- Lines 98-106: acceleration from the net force
`F_control + F_friction + F_gravity` divided by the mass. -/
def accel (cfg : ScenarioConfig) (st : SimState) : ℚ :=
  (pidForce cfg st + friction cfg st.v + -(m * g * cfg.sinA)) / m

/-- Lines 110-119: one state update of the loop — semi-implicit Euler
for velocity/position with the hard stop at the origin, and the PID
state carried over (`error_integral` already updated, `previous_error`
replaced by the current error). -/
def updState (cfg : ScenarioConfig) (st : SimState) : SimState :=
  let vNext := st.v + accel cfg st * dt
  let sNext := st.s + vNext * dt
  if sNext < 0 then
    { s := 0, v := 0, integral := pidIntegral cfg st, prev_error := pidError cfg st }
  else
    { s := sNext, v := vNext, integral := pidIntegral cfg st, prev_error := pidError cfg st }

/-- The row recorded at iteration `i` of the loop (arrays
`time_array[i]`, `train_position[i]`, ..., assembled into the DataFrame
on lines 122-131). -/
def mkRecord (cfg : ScenarioConfig) (i : ℕ) (st : SimState) : SampleRecord :=
  { time := (i : ℚ) * dt
    train_position := st.s
    falling_object_position := ballHeight cfg ((i : ℚ) * dt)
    applied_force := pidForce cfg st
    train_velocity := st.v
    train_acceleration := accel cfg st
    error_derivative := pidDeriv cfg st
    error_integral := pidIntegral cfg st }

/-- Lines 53-60: initial conditions — `train_position[0] = train_x_initial`,
`train_velocity[0] = 0.0`, `error_integral = 0.0`,
`previous_error = ball_x - train_position[0]`. -/
def initState (cfg : ScenarioConfig) : SimState :=
  { s := cfg.train_x_initial, v := 0, integral := 0,
    prev_error := cfg.ball_x - cfg.train_x_initial }

/-- The loop state at the start of iteration `k`. -/
def stateAt (cfg : ScenarioConfig) : ℕ → SimState
  | 0 => initState cfg
  | k + 1 => updState cfg (stateAt cfg k)

/-- The `k`-th recorded row of the run. -/
def recordAt (cfg : ScenarioConfig) (k : ℕ) : SampleRecord :=
  mkRecord cfg k (stateAt cfg k)

/-- `simulate_scenario`: the full ordered output of the simulation loop,
one `SampleRecord` per iteration `i ∈ [0, num_steps)`. -/
def simulate_scenario (cfg : ScenarioConfig) : List SampleRecord :=
  (List.range num_steps).map (recordAt cfg)

/-- The tracking error at step `k`, `ball_x - train_position[k]`. -/
def errAt (cfg : ScenarioConfig) (k : ℕ) : ℚ :=
  cfg.ball_x - (stateAt cfg k).s

/-- The sign function used by the spec's friction formula
`-μ·N·sign(v)`.  (The source expresses friction by branching on
`v > 0.01` / `v < -0.01` instead.) -/
def sgn (v : ℚ) : ℚ :=
  if 0 < v then 1 else if v < 0 then -1 else 0

/-- Classification state of the catch logic in the `animate` callback of
`animate_realtime.py` (`ball_caught_at_frame` plus whether the CAUGHT or
the MISSED print fired). -/
inductive CatchClass where
  | pending
  | caught (i : ℕ)
  | missed (i : ℕ)
deriving DecidableEq

/-- Lines 433-461 of `animate_realtime.py`, per frame: while no
classification has been made, declare CAUGHT when the ball is at or
below `surface_y + 1.0` and the train is within 3 m (strict), else
declare MISSED when the ball's recorded height is strictly below the
surface; afterwards the stored classification is kept unchanged. -/
def animStep (cfg : ScenarioConfig) (st : CatchClass) (i : ℕ) (r : SampleRecord) :
    CatchClass :=
  match st with
  | .pending =>
    if r.falling_object_position ≤ cfg.ball_x * cfg.tanA + 1
        ∧ |r.train_position - cfg.ball_x| < 3 then
      CatchClass.caught i
    else if r.falling_object_position < cfg.ball_x * cfg.tanA then
      CatchClass.missed i
    else
      CatchClass.pending
  | st => st

/-- The `animate` callback's classification state after processing the
frames of `rs` in order, starting from state `st` at frame index `i`. -/
def animRunAux (cfg : ScenarioConfig) : CatchClass → ℕ → List SampleRecord → CatchClass
  | st, _, [] => st
  | st, i, r :: rs => animRunAux cfg (animStep cfg st i r) (i + 1) rs

/-- The classification reached after playing a whole record sequence
through the `animate` callback (frame skip 1). -/
def animRun (cfg : ScenarioConfig) (rs : List SampleRecord) : CatchClass :=
  animRunAux cfg CatchClass.pending 0 rs

/-- Lines 52-65 of `analyze_random_scenarios.py` (`calculate_metrics`):
scan the rows in order; the scenario is `caught` at the first row whose
ball height is within 1.0 of the landing surface while the train is
within 3.0 m (inclusive); `caught = False` if no row qualifies. -/
def calculate_metrics_caught (cfg : ScenarioConfig) : List SampleRecord → Bool
  | [] => false
  | r :: rs =>
    if r.falling_object_position ≤ cfg.ball_x * cfg.tanA + 1
        ∧ |r.train_position - cfg.ball_x| ≤ 3 then true
    else calculate_metrics_caught cfg rs

/-- The index (counting from `i`) of the first record satisfying the
`animate` catch condition, used to characterise the classifier's result. -/
def firstCatchIdx (cfg : ScenarioConfig) : ℕ → List SampleRecord → Option ℕ
  | _, [] => none
  | i, r :: rs =>
    if r.falling_object_position ≤ cfg.ball_x * cfg.tanA + 1
        ∧ |r.train_position - cfg.ball_x| < 3 then some i
    else firstCatchIdx cfg (i + 1) rs

/-- The 8-column CSV row written for one record (DataFrame column order
of lines 122-131 of `generate_random_scenarios.py`). -/
def writeRow8 (r : SampleRecord) : List ℚ :=
  [r.time, r.train_position, r.falling_object_position, r.applied_force,
   r.train_velocity, r.train_acceleration, r.error_derivative, r.error_integral]

/-- The legacy 4-column CSV row `time, train_x, ball_y, force`. -/
def writeRow4 (r : SampleRecord) : List ℚ :=
  [r.time, r.train_position, r.falling_object_position, r.applied_force]

/-- One row as seen by a consumer after schema dispatch
(lines 49-56 of `analyze_comprehensive.py`). -/
structure LoadedRow where
  time : ℚ
  train_x : ℚ
  ball_y : ℚ
  force : ℚ
deriving DecidableEq

/-- Lines 49-56 of `analyze_comprehensive.py`: a file with exactly 4
columns is taken as the legacy `time, train_x, ball_y, force` schema;
otherwise the columns named `time, train_position,
falling_object_position, applied_force` (positions 0-3 of the 8-column
schema) are selected and renamed to the same four. -/
def readRow (row : List ℚ) : Option LoadedRow :=
  if row.length = 4 then
    match row with
    | [t, x, y, f] => some ⟨t, x, y, f⟩
    | _ => none
  else
    match row with
    | t :: x :: y :: f :: _ => some ⟨t, x, y, f⟩
    | _ => none

/-- The four fields a reader must reproduce from a written record. -/
def loadedOf (r : SampleRecord) : LoadedRow :=
  ⟨r.time, r.train_position, r.falling_object_position, r.applied_force⟩

/-- A scenario on a flat track (`angle = 0`): the ball starts at height
0, i.e. already on the landing surface, 4 m ahead of the train. -/
def lateCatchCfg : ScenarioConfig :=
  { ball_x := 4, ball_y_initial := 0, train_x_initial := 0,
    sinA := 0, cosA := 1, tanA := 0 }

/-- The concrete flat-track scenario `ball_x = 70`, `ball_y0 = 100`,
`train_x0 = 10` used to evaluate the first emitted record. -/
def seedCfg : ScenarioConfig :=
  { ball_x := 70, ball_y_initial := 100, train_x_initial := 10,
    sinA := 0, cosA := 1, tanA := 0 }

/-- A configuration violating the spec's `train_x0 < ball_x` invariant:
the train starts exactly at the ball's horizontal position. -/
def invalidCfg : ScenarioConfig :=
  { ball_x := 4, ball_y_initial := 100, train_x_initial := 4,
    sinA := 0, cosA := 1, tanA := 0 }

end FreeFall

namespace FreeFall

section KernelEval
set_option allowUnsafeReducibility true
attribute [local semireducible] Rat.add Rat.mul Rat.inv Rat.sub Rat.ofScientific

lemma num_steps_eq : num_steps = 2000 := by decide

end KernelEval

lemma simulate_length (cfg : ScenarioConfig) :
    (simulate_scenario cfg).length = num_steps := by
  simp [simulate_scenario]

lemma simulate_getD (cfg : ScenarioConfig) (k : ℕ) (h : k < num_steps) :
    (simulate_scenario cfg).getD k default = recordAt cfg k := by
  rw [simulate_scenario, List.getD_eq_getElem?_getD, List.getElem?_map,
    List.getElem?_range h]
  rfl

lemma ballHeight_ge (cfg : ScenarioConfig) (t : ℚ) :
    cfg.ball_x * cfg.tanA ≤ ballHeight cfg t := by
  simp only [ballHeight]
  split_ifs with h
  · exact le_rfl
  · exact (not_le.mp h).le

lemma stateAt_succ (cfg : ScenarioConfig) (k : ℕ) :
    stateAt cfg (k + 1) = updState cfg (stateAt cfg k) := rfl

lemma updState_integral (cfg : ScenarioConfig) (st : SimState) :
    (updState cfg st).integral = pidIntegral cfg st := by
  simp only [updState]
  split_ifs <;> rfl

lemma updState_prev (cfg : ScenarioConfig) (st : SimState) :
    (updState cfg st).prev_error = pidError cfg st := by
  simp only [updState]
  split_ifs <;> rfl

lemma pidError_stateAt (cfg : ScenarioConfig) (k : ℕ) :
    pidError cfg (stateAt cfg k) = errAt cfg k := rfl

lemma stateAt_integral (cfg : ScenarioConfig) (k : ℕ) :
    (stateAt cfg k).integral = dt * ∑ j ∈ Finset.range k, errAt cfg j := by
  induction k with
  | zero => simp [stateAt, initState]
  | succ k ih =>
      rw [stateAt_succ, updState_integral, pidIntegral, pidError_stateAt, ih,
        Finset.sum_range_succ]
      ring

lemma stateAt_prev_zero (cfg : ScenarioConfig) :
    (stateAt cfg 0).prev_error = cfg.ball_x - cfg.train_x_initial := rfl

lemma stateAt_prev_succ (cfg : ScenarioConfig) (k : ℕ) :
    (stateAt cfg (k + 1)).prev_error = errAt cfg k := by
  rw [stateAt_succ, updState_prev, pidError_stateAt]

lemma stateAt_s_nonneg (cfg : ScenarioConfig) (h0 : 0 ≤ cfg.train_x_initial) (k : ℕ) :
    0 ≤ (stateAt cfg k).s := by
  induction k with
  | zero => exact h0
  | succ k ih =>
      rw [stateAt_succ]
      simp only [updState]
      split_ifs with hs
      · exact le_rfl
      · exact not_lt.mp hs

end FreeFall

namespace FreeFall

lemma friction_eq_sgn (cfg : ScenarioConfig) (v : ℚ) :
    friction cfg v
      = if 1/100 < |v| then -(mu * (m * g * cfg.cosA)) * sgn v else 0 := by
  unfold friction sgn
  rcases le_or_lt |v| (1/100) with hle | hgt
  · have h1 : ¬ (1/100 < v) := fun hc => absurd (lt_of_lt_of_le hc (le_trans (le_abs_self v) hle)) (lt_irrefl _)
    have h2 : ¬ (v < -(1/100)) := by
      have := neg_abs_le v
      intro hc
      have : -(1/100 : ℚ) ≤ v := le_trans (neg_le_neg hle) (neg_abs_le v)
      exact absurd (lt_of_le_of_lt this hc) (lt_irrefl _)
    rw [if_neg h1, if_neg h2, if_neg (not_lt.mpr hle)]
  · rcases lt_or_le 0 v with hv | hv
    · have hgt1 : 1/100 < v := by rwa [abs_of_pos hv] at hgt
      rw [if_pos hgt1, if_pos hgt, if_pos hv, mul_one]
    · have hvneg : v < 0 := by
        rcases lt_or_eq_of_le hv with h | h
        · exact h
        · exfalso; rw [h, abs_zero] at hgt; exact absurd hgt (by norm_num)
      have h2 : v < -(1/100) := by
        rw [abs_of_neg hvneg] at hgt
        linarith
      rw [if_neg (by linarith : ¬ (1/100 : ℚ) < v), if_pos h2, if_pos hgt,
        if_neg (not_lt.mpr hv), if_pos hvneg]
      ring

lemma animStep_absorb (cfg : ScenarioConfig) (st : CatchClass) (i : ℕ)
    (r : SampleRecord) (h : st ≠ CatchClass.pending) : animStep cfg st i r = st := by
  cases st with
  | pending => exact absurd rfl h
  | caught j => rfl
  | missed j => rfl

lemma animRunAux_absorb (cfg : ScenarioConfig) (st : CatchClass) (i : ℕ)
    (rs : List SampleRecord) (h : st ≠ CatchClass.pending) :
    animRunAux cfg st i rs = st := by
  induction rs generalizing i with
  | nil => rfl
  | cons r rs ih =>
      rw [animRunAux, animStep_absorb cfg st i r h]
      exact ih _

lemma animRunAux_append (cfg : ScenarioConfig) (st : CatchClass) (i : ℕ)
    (l1 l2 : List SampleRecord) :
    animRunAux cfg st i (l1 ++ l2)
      = animRunAux cfg (animRunAux cfg st i l1) (i + l1.length) l2 := by
  induction l1 generalizing st i with
  | nil => simp [animRunAux]
  | cons r rs ih =>
      rw [List.cons_append]
      show animRunAux cfg (animStep cfg st i r) (i + 1) (rs ++ l2) = _
      rw [ih]
      have h3 : (i + 1) + rs.length = i + (r :: rs).length := by
        simp [List.length_cons]
        omega
      rw [h3]
      rfl

lemma animRunAux_no_miss (cfg : ScenarioConfig) (rs : List SampleRecord) (i : ℕ)
    (h : ∀ r ∈ rs, ¬ r.falling_object_position < cfg.ball_x * cfg.tanA) :
    animRunAux cfg CatchClass.pending i rs
      = (firstCatchIdx cfg i rs).elim CatchClass.pending CatchClass.caught := by
  induction rs generalizing i with
  | nil => rfl
  | cons r rs ih =>
      by_cases hc : r.falling_object_position ≤ cfg.ball_x * cfg.tanA + 1
          ∧ |r.train_position - cfg.ball_x| < 3
      · rw [animRunAux, firstCatchIdx, if_pos hc]
        have hstep : animStep cfg CatchClass.pending i r = CatchClass.caught i := by
          rw [animStep]
          exact if_pos hc
        rw [hstep, animRunAux_absorb cfg _ _ _ (fun hcon => CatchClass.noConfusion hcon)]
        rfl
      · have hmiss : ¬ r.falling_object_position < cfg.ball_x * cfg.tanA :=
          h r (List.mem_cons_self r rs)
        have hstep : animStep cfg CatchClass.pending i r = CatchClass.pending := by
          rw [animStep, if_neg hc, if_neg hmiss]
        rw [animRunAux, firstCatchIdx, if_neg hc, hstep]
        exact ih (i + 1) (fun r hr => h r (List.mem_cons_of_mem _ hr))

lemma calculate_metrics_caught_iff (cfg : ScenarioConfig) (rs : List SampleRecord) :
    calculate_metrics_caught cfg rs = true
      ↔ ∃ r ∈ rs, r.falling_object_position ≤ cfg.ball_x * cfg.tanA + 1
          ∧ |r.train_position - cfg.ball_x| ≤ 3 := by
  induction rs with
  | nil => simp [calculate_metrics_caught]
  | cons r rs ih =>
      by_cases hc : r.falling_object_position ≤ cfg.ball_x * cfg.tanA + 1
          ∧ |r.train_position - cfg.ball_x| ≤ 3
      · simp [calculate_metrics_caught, if_pos hc, hc]
      · rw [calculate_metrics_caught, if_neg hc]
        simp only [List.mem_cons]
        constructor
        · intro hcaught
          obtain ⟨r2, hr2, hcond⟩ := ih.mp hcaught
          exact ⟨r2, Or.inr hr2, hcond⟩
        · rintro ⟨r2, hr2 | hr2, hcond⟩
          · exact absurd (hr2 ▸ hcond) hc
          · exact ih.mpr ⟨r2, hr2, hcond⟩

lemma simulate_no_below_surface (cfg : ScenarioConfig) :
    ∀ r ∈ simulate_scenario cfg,
      ¬ r.falling_object_position < cfg.ball_x * cfg.tanA := by
  intro r hr
  obtain ⟨k, _, rfl⟩ := List.mem_map.mp hr
  exact not_lt.mpr (ballHeight_ge cfg _)

lemma readRow_writeRow8 (r : SampleRecord) :
    readRow (writeRow8 r) = some (loadedOf r) := rfl

lemma readRow_writeRow4 (r : SampleRecord) :
    readRow (writeRow4 r) = some (loadedOf r) := rfl

end FreeFall

namespace FreeFall

lemma recordAt_force_closed (cfg : ScenarioConfig) (k : ℕ) :
    (recordAt cfg k).applied_force
      = Kp * errAt cfg k
        + Ki * (dt * ∑ j ∈ Finset.range (k + 1), errAt cfg j)
        + Kd * ((errAt cfg k
            - (if k = 0 then cfg.ball_x - cfg.train_x_initial
               else errAt cfg (k - 1))) / dt) := by
  have h1 : (recordAt cfg k).applied_force
      = Kp * errAt cfg k + Ki * ((stateAt cfg k).integral + errAt cfg k * dt)
        + Kd * ((errAt cfg k - (stateAt cfg k).prev_error) / dt) := rfl
  rw [h1, stateAt_integral, Finset.sum_range_succ]
  cases k with
  | zero =>
      rw [if_pos rfl, stateAt_prev_zero]
      ring
  | succ n =>
      rw [if_neg (Nat.succ_ne_zero n), stateAt_prev_succ, Nat.succ_sub_one]
      ring

/-- C1: at every step `k` of a run, the recorded applied force equals
`Kp·e_k + Ki·I_k + Kd·(e_k - e_(k-1))/Δt`, where `e_k = ball_x - s_k`,
`I_k = Δt · Σ_(j=0..k) e_j`, and the previous-error seed for `k = 0` is
`ball_x - train_x0`. -/
theorem pid_force_recorded (cfg : ScenarioConfig) (k : ℕ) (h : k < num_steps) :
    ((simulate_scenario cfg).getD k default).applied_force
      = Kp * (cfg.ball_x - ((simulate_scenario cfg).getD k default).train_position)
        + Ki * (dt * ∑ j ∈ Finset.range (k + 1),
            (cfg.ball_x - ((simulate_scenario cfg).getD j default).train_position))
        + Kd * (((cfg.ball_x - ((simulate_scenario cfg).getD k default).train_position)
            - (if k = 0 then cfg.ball_x - cfg.train_x_initial
               else cfg.ball_x
                 - ((simulate_scenario cfg).getD (k - 1) default).train_position)) / dt) := by
  have hsum : ∑ j ∈ Finset.range (k + 1),
      (cfg.ball_x - ((simulate_scenario cfg).getD j default).train_position)
        = ∑ j ∈ Finset.range (k + 1), errAt cfg j :=
    Finset.sum_congr rfl fun j hj => by
      rw [simulate_getD cfg j (lt_of_lt_of_le (Finset.mem_range.mp hj) (Nat.succ_le_of_lt h))]
      rfl
  rw [simulate_getD cfg k h, hsum,
    simulate_getD cfg (k - 1) (lt_of_le_of_lt (Nat.sub_le k 1) h)]
  exact recordAt_force_closed cfg k

/-- Witness for C1: the force formula instantiated at step 0 of the
concrete scenario `seedCfg`. -/
theorem pid_force_recorded_witness :
    0 < num_steps
    ∧ ((simulate_scenario seedCfg).getD 0 default).applied_force
      = Kp * (seedCfg.ball_x - ((simulate_scenario seedCfg).getD 0 default).train_position)
        + Ki * (dt * ∑ j ∈ Finset.range (0 + 1),
            (seedCfg.ball_x - ((simulate_scenario seedCfg).getD j default).train_position))
        + Kd * (((seedCfg.ball_x - ((simulate_scenario seedCfg).getD 0 default).train_position)
            - (if 0 = 0 then seedCfg.ball_x - seedCfg.train_x_initial
               else seedCfg.ball_x
                 - ((simulate_scenario seedCfg).getD (0 - 1) default).train_position)) / dt) :=
  ⟨by rw [num_steps_eq]; omega,
   pid_force_recorded seedCfg 0 (by rw [num_steps_eq]; omega)⟩

/-- C3: the recorded object height at step `k` is a pure function of the
elapsed time `t = k·Δt` and the configuration: it is the free-fall value
`ball_y0 - g·t²/2` whenever that exceeds the landing surface height
`ball_x·tan(angle)`, and the landing surface height otherwise. -/
theorem ball_height_recorded (cfg : ScenarioConfig) (k : ℕ) (h : k < num_steps) :
    ((simulate_scenario cfg).getD k default).time = (k : ℚ) * dt
    ∧ ((simulate_scenario cfg).getD k default).falling_object_position
      = (if cfg.ball_x * cfg.tanA < cfg.ball_y_initial - 1/2 * g * ((k : ℚ) * dt)^2
         then cfg.ball_y_initial - 1/2 * g * ((k : ℚ) * dt)^2
         else cfg.ball_x * cfg.tanA) := by
  rw [simulate_getD cfg k h]
  refine ⟨rfl, ?_⟩
  show ballHeight cfg ((k : ℚ) * dt) = _
  simp only [ballHeight]
  rcases le_or_lt (cfg.ball_y_initial - 1/2 * g * ((k : ℚ) * dt)^2)
      (cfg.ball_x * cfg.tanA) with hle | hgt
  · rw [if_pos hle, if_neg (not_lt.mpr hle)]
  · rw [if_neg (not_le.mpr hgt), if_pos hgt]

/-- Witness for C3: the height formula instantiated at step 0 of
`seedCfg`. -/
theorem ball_height_recorded_witness :
    0 < num_steps
    ∧ (((simulate_scenario seedCfg).getD 0 default).time = ((0 : ℕ) : ℚ) * dt
      ∧ ((simulate_scenario seedCfg).getD 0 default).falling_object_position
        = (if seedCfg.ball_x * seedCfg.tanA
              < seedCfg.ball_y_initial - 1/2 * g * (((0 : ℕ) : ℚ) * dt)^2
           then seedCfg.ball_y_initial - 1/2 * g * (((0 : ℕ) : ℚ) * dt)^2
           else seedCfg.ball_x * seedCfg.tanA)) :=
  ⟨by rw [num_steps_eq]; omega,
   ball_height_recorded seedCfg 0 (by rw [num_steps_eq]; omega)⟩

/-- C5: the loop always runs exactly `num_steps = int(duration/Δt) = 2000`
iterations and emits one record per iteration, independent of any
catch/miss classification (which the loop never consults). -/
theorem full_duration_record_count (cfg : ScenarioConfig) :
    (simulate_scenario cfg).length = num_steps ∧ num_steps = 2000 :=
  ⟨simulate_length cfg, num_steps_eq⟩

/-- C9: if the train starts at a nonnegative position, every recorded
train position is nonnegative (the hard stop at the origin is preserved
by every state update). -/
theorem train_position_nonneg (cfg : ScenarioConfig) (k : ℕ)
    (h0 : 0 ≤ cfg.train_x_initial) (h : k < num_steps) :
    0 ≤ ((simulate_scenario cfg).getD k default).train_position := by
  rw [simulate_getD cfg k h]
  exact stateAt_s_nonneg cfg h0 k

/-- Witness for C9: nonnegativity of the recorded position at step 0 of
`seedCfg`. -/
theorem train_position_nonneg_witness :
    0 ≤ seedCfg.train_x_initial ∧ 0 < num_steps
    ∧ 0 ≤ ((simulate_scenario seedCfg).getD 0 default).train_position :=
  ⟨by norm_num [seedCfg], by rw [num_steps_eq]; omega,
   train_position_nonneg seedCfg 0 (by norm_num [seedCfg]) (by rw [num_steps_eq]; omega)⟩

/-- C10: the first emitted record has time 0, train position
`train_x0`, train velocity 0, and its control force is determined by the
initial separation alone: `F_0 = (Kp + Ki·Δt)·(ball_x - train_x0)`. -/
theorem initial_record (cfg : ScenarioConfig) :
    ((simulate_scenario cfg).getD 0 default).time = 0
    ∧ ((simulate_scenario cfg).getD 0 default).train_position = cfg.train_x_initial
    ∧ ((simulate_scenario cfg).getD 0 default).train_velocity = 0
    ∧ ((simulate_scenario cfg).getD 0 default).applied_force
      = (Kp + Ki * dt) * (cfg.ball_x - cfg.train_x_initial) := by
  rw [simulate_getD cfg 0 (by rw [num_steps_eq]; omega)]
  refine ⟨?_, rfl, rfl, ?_⟩
  · show ((0 : ℕ) : ℚ) * dt = 0
    rw [Nat.cast_zero, zero_mul]
  · show Kp * (cfg.ball_x - cfg.train_x_initial)
        + Ki * (0 + (cfg.ball_x - cfg.train_x_initial) * dt)
        + Kd * (((cfg.ball_x - cfg.train_x_initial)
            - (cfg.ball_x - cfg.train_x_initial)) / dt)
        = (Kp + Ki * dt) * (cfg.ball_x - cfg.train_x_initial)
    rw [sub_self, zero_div]
    ring

/-- C7 (amended): in the first emitted record the error integral is
`(ball_x - train_x0)·Δt` — the integral is updated before it is recorded
— and the error derivative is 0, per the stated previous-error seed. -/
theorem initial_pid_record (cfg : ScenarioConfig) :
    ((simulate_scenario cfg).getD 0 default).error_integral
      = (cfg.ball_x - cfg.train_x_initial) * dt
    ∧ ((simulate_scenario cfg).getD 0 default).error_derivative = 0 := by
  rw [simulate_getD cfg 0 (by rw [num_steps_eq]; omega)]
  constructor
  · show (0 : ℚ) + (cfg.ball_x - cfg.train_x_initial) * dt = _
    rw [zero_add]
  · show ((cfg.ball_x - cfg.train_x_initial) - (cfg.ball_x - cfg.train_x_initial)) / dt = 0
    rw [sub_self, zero_div]

/-- C8: writing records in either the 8-column or the legacy 4-column
schema and reading them back through the width-dispatching reader
reproduces the `time`, `train_position` (`train_x`), ball-height and
`applied_force` (`force`) values of every record; the widths are exactly
8 and 4. -/
theorem csv_roundtrip (rs : List SampleRecord) :
    (rs.map writeRow8).map readRow = rs.map (fun r => some (loadedOf r))
    ∧ (rs.map writeRow4).map readRow = rs.map (fun r => some (loadedOf r))
    ∧ ∀ r : SampleRecord, (writeRow8 r).length = 8 ∧ (writeRow4 r).length = 4 := by
  refine ⟨?_, ?_, fun r => ⟨rfl, rfl⟩⟩
  · induction rs with
    | nil => rfl
    | cons r rs ih => rw [List.map_cons, List.map_cons, readRow_writeRow8, ih, List.map_cons]
  · induction rs with
    | nil => rfl
    | cons r rs ih => rw [List.map_cons, List.map_cons, readRow_writeRow4, ih, List.map_cons]

end FreeFall

namespace FreeFall

lemma updState_clamp (cfg : ScenarioConfig) (st : SimState)
    (h : st.s + (st.v + accel cfg st * dt) * dt < 0) :
    (updState cfg st).s = 0 ∧ (updState cfg st).v = 0 := by
  simp only [updState]
  rw [if_pos h]
  exact ⟨rfl, rfl⟩

lemma updState_euler (cfg : ScenarioConfig) (st : SimState)
    (h : ¬ st.s + (st.v + accel cfg st * dt) * dt < 0) :
    (updState cfg st).v = st.v + accel cfg st * dt
    ∧ (updState cfg st).s = st.s + (st.v + accel cfg st * dt) * dt := by
  simp only [updState]
  rw [if_neg h]
  exact ⟨rfl, rfl⟩

/-- C2: at every step, the recorded acceleration is
`(F_ctrl + friction - m·g·sin(angle))/m` with the friction force equal to
`-μ·m·g·cos(angle)·sign(v)` inside the `|v| > 0.01` dead band and `0`
otherwise, and the next recorded state follows semi-implicit Euler
(`v' = v + a·Δt`, `s' = s + v'·Δt`) except that a negative candidate
position is clamped to `0` with the velocity zeroed. -/
theorem dynamics_step_recorded (cfg : ScenarioConfig) (k : ℕ) (h : k + 1 < num_steps) :
    ((simulate_scenario cfg).getD k default).train_acceleration
      = (((simulate_scenario cfg).getD k default).applied_force
          + (if 1/100 < |((simulate_scenario cfg).getD k default).train_velocity|
             then -(mu * (m * g * cfg.cosA))
                  * sgn ((simulate_scenario cfg).getD k default).train_velocity
             else 0)
          - m * g * cfg.sinA) / m
    ∧ (((simulate_scenario cfg).getD k default).train_position
          + (((simulate_scenario cfg).getD k default).train_velocity
             + ((simulate_scenario cfg).getD k default).train_acceleration * dt) * dt < 0 →
        ((simulate_scenario cfg).getD (k + 1) default).train_position = 0
        ∧ ((simulate_scenario cfg).getD (k + 1) default).train_velocity = 0)
    ∧ (¬ (((simulate_scenario cfg).getD k default).train_position
          + (((simulate_scenario cfg).getD k default).train_velocity
             + ((simulate_scenario cfg).getD k default).train_acceleration * dt) * dt < 0) →
        ((simulate_scenario cfg).getD (k + 1) default).train_velocity
          = ((simulate_scenario cfg).getD k default).train_velocity
            + ((simulate_scenario cfg).getD k default).train_acceleration * dt
        ∧ ((simulate_scenario cfg).getD (k + 1) default).train_position
          = ((simulate_scenario cfg).getD k default).train_position
            + ((simulate_scenario cfg).getD (k + 1) default).train_velocity * dt) := by
  rw [simulate_getD cfg k (Nat.lt_of_succ_lt h), simulate_getD cfg (k + 1) h]
  refine ⟨?_, ?_, ?_⟩
  · rw [← friction_eq_sgn cfg ((recordAt cfg k).train_velocity), sub_eq_add_neg]
    rfl
  · intro hneg
    exact updState_clamp cfg (stateAt cfg k) hneg
  · intro hpos
    have h2 := updState_euler cfg (stateAt cfg k) hpos
    refine ⟨h2.1, ?_⟩
    show (updState cfg (stateAt cfg k)).s
        = (stateAt cfg k).s + (updState cfg (stateAt cfg k)).v * dt
    rw [h2.1, h2.2]

/-- Witness for C2: the dynamics-step property instantiated at step 0 of
`seedCfg`. -/
theorem dynamics_step_recorded_witness :
    0 + 1 < num_steps
    ∧ (((simulate_scenario seedCfg).getD 0 default).train_acceleration
      = (((simulate_scenario seedCfg).getD 0 default).applied_force
          + (if 1/100 < |((simulate_scenario seedCfg).getD 0 default).train_velocity|
             then -(mu * (m * g * seedCfg.cosA))
                  * sgn ((simulate_scenario seedCfg).getD 0 default).train_velocity
             else 0)
          - m * g * seedCfg.sinA) / m
    ∧ (((simulate_scenario seedCfg).getD 0 default).train_position
          + (((simulate_scenario seedCfg).getD 0 default).train_velocity
             + ((simulate_scenario seedCfg).getD 0 default).train_acceleration * dt) * dt < 0 →
        ((simulate_scenario seedCfg).getD (0 + 1) default).train_position = 0
        ∧ ((simulate_scenario seedCfg).getD (0 + 1) default).train_velocity = 0)
    ∧ (¬ (((simulate_scenario seedCfg).getD 0 default).train_position
          + (((simulate_scenario seedCfg).getD 0 default).train_velocity
             + ((simulate_scenario seedCfg).getD 0 default).train_acceleration * dt) * dt < 0) →
        ((simulate_scenario seedCfg).getD (0 + 1) default).train_velocity
          = ((simulate_scenario seedCfg).getD 0 default).train_velocity
            + ((simulate_scenario seedCfg).getD 0 default).train_acceleration * dt
        ∧ ((simulate_scenario seedCfg).getD (0 + 1) default).train_position
          = ((simulate_scenario seedCfg).getD 0 default).train_position
            + ((simulate_scenario seedCfg).getD (0 + 1) default).train_velocity * dt)) :=
  ⟨by rw [num_steps_eq]; omega,
   dynamics_step_recorded seedCfg 0 (by rw [num_steps_eq]; omega)⟩

/-- C4 (amended): the `animate` classifier is a state machine whose
terminal states are absorbing; on simulator output (heights clamped at
the landing surface) its MISSED branch is unreachable, so the run is
classified CAUGHT at the first step satisfying the catch condition when
one exists and stays PENDING otherwise; the batch classifier of
`calculate_metrics` reports `caught` exactly when some step satisfies
its (inclusive, `≤ 3.0`) catch condition. -/
theorem catch_classifier_behaviour (cfg : ScenarioConfig) :
    (∀ st i r, st ≠ CatchClass.pending → animStep cfg st i r = st)
    ∧ animRun cfg (simulate_scenario cfg)
        = (firstCatchIdx cfg 0 (simulate_scenario cfg)).elim
            CatchClass.pending CatchClass.caught
    ∧ (calculate_metrics_caught cfg (simulate_scenario cfg) = true
        ↔ ∃ r ∈ simulate_scenario cfg,
            r.falling_object_position ≤ cfg.ball_x * cfg.tanA + 1
            ∧ |r.train_position - cfg.ball_x| ≤ 3) := by
  refine ⟨fun st i r hst => animStep_absorb cfg st i r hst, ?_,
    calculate_metrics_caught_iff cfg _⟩
  exact animRunAux_no_miss cfg _ 0 (simulate_no_below_surface cfg)

/-- Witness for C4 (amended): absorption of a terminal state at a
concrete state, index and record. -/
theorem catch_classifier_behaviour_witness :
    animStep lateCatchCfg (CatchClass.caught 5) 7 default = CatchClass.caught 5 :=
  (catch_classifier_behaviour lateCatchCfg).1 (CatchClass.caught 5) 7 default (by decide)

end FreeFall

namespace FreeFall

section KernelEval2
set_option allowUnsafeReducibility true
attribute [local semireducible] Rat.add Rat.mul Rat.inv Rat.sub Rat.ofScientific

/-- C4 (counterexample): in the flat scenario `lateCatchCfg` the object
is already at the landing surface in the very first record, while the
train is 4 m away (not within 3 m), so per the claim the run should be
declared missed at that point; but the classifier ends in CAUGHT at
step 20, when the train finally comes within 3 m. -/
theorem catch_missed_never_declared :
    (recordAt lateCatchCfg 0).falling_object_position
        = lateCatchCfg.ball_x * lateCatchCfg.tanA
    ∧ 3 ≤ |(recordAt lateCatchCfg 0).train_position - lateCatchCfg.ball_x|
    ∧ animRun lateCatchCfg (simulate_scenario lateCatchCfg) = CatchClass.caught 20 := by
  refine ⟨by decide, by decide, ?_⟩
  have hsplit : simulate_scenario lateCatchCfg
      = ((List.range' 0 21).map (recordAt lateCatchCfg))
        ++ ((List.range' 21 1979).map (recordAt lateCatchCfg)) := by
    rw [← List.map_append, simulate_scenario, num_steps_eq, List.range_eq_range']
    have h21 := List.range'_append 0 21 1979 1
    norm_num at h21
    rw [h21]
  rw [animRun, hsplit, animRunAux_append]
  have h1 : animRunAux lateCatchCfg CatchClass.pending 0
      ((List.range' 0 21).map (recordAt lateCatchCfg)) = CatchClass.caught 20 := by decide
  rw [h1, animRunAux_absorb lateCatchCfg _ _ _ (by decide)]

/-- C6 (counterexample): `invalidCfg` has `train_x0 = ball_x`, violating
the claimed precondition check, yet the simulation runs and emits a
nonempty record sequence — no fault is raised and the loop is not
skipped. -/
theorem invalid_config_still_runs :
    invalidCfg.ball_x ≤ invalidCfg.train_x_initial
    ∧ (simulate_scenario invalidCfg).length ≠ 0 := by
  refine ⟨by norm_num [invalidCfg], ?_⟩
  rw [simulate_length, num_steps_eq]
  omega

/-- C7 (counterexample): in the first record of the concrete scenario
`seedCfg` the recorded `error_integral` is `(70 - 10)·0.02 = 1.2 ≠ 0`,
because the integral is accumulated before being recorded. -/
theorem initial_integral_nonzero :
    ((simulate_scenario seedCfg).getD 0 default).error_integral ≠ 0 := by
  rw [simulate_getD seedCfg 0 (by rw [num_steps_eq]; omega)]
  decide

end KernelEval2

/-- C6 (amended): the code performs no configuration validation — even
when `train_x0 ≥ ball_x` the simulation starts and emits the full
`int(duration/Δt) = 2000` records. -/
theorem no_config_validation (cfg : ScenarioConfig)
    (h : cfg.ball_x ≤ cfg.train_x_initial) :
    (simulate_scenario cfg).length = 2000 := by
  rw [simulate_length, num_steps_eq]

/-- Witness for C6 (amended): the full record count for the concrete
invalid configuration. -/
theorem no_config_validation_witness :
    invalidCfg.ball_x ≤ invalidCfg.train_x_initial
    ∧ (simulate_scenario invalidCfg).length = 2000 :=
  ⟨by norm_num [invalidCfg], no_config_validation invalidCfg (by norm_num [invalidCfg])⟩

end FreeFall
